import Mathlib

/-!
Verification development for the bitcoin-chatbot client session core
(`src/App.jsx`, the revision with tour playback and persisted history).

The embedding models:
* the JSON values exchanged with `localStorage` and the remote service
  (a small executable parser/serializer standing for `JSON.parse` /
  `JSON.stringify`; numbers are restricted to integers and `\u` escapes
  are not modelled — no claim depends on either),
* the persistence layer (the `useState` initializer reading
  `bitcoinChatHistory` and the save `useEffect`),
* `handleSendMessage` (the `ask` operation) as a function from the
  component state, the `VITE_API_URL` configuration and the fetch
  outcome to the settled state,
* `handleStartTour` (the `fetchTour` operation) as the sequence of
  state-mutation events it performs, so that ordering properties of the
  playback loop can be stated.
-/

namespace BChat

/-- JSON values as produced by `JSON.parse`.  Numbers are modelled as
integers (the repository only ever exchanges strings, arrays and
objects, so fractional numbers are irrelevant to every claim). -/
inductive Json where
  | null
  | bool (b : Bool)
  | num (n : Int)
  | str (s : String)
  | arr (elems : List Json)
  | obj (fields : List (String × Json))

/-- Whitespace accepted between JSON tokens. -/
def isJsonWs (c : Char) : Bool :=
  c = ' ' || c = '\n' || c = '\t' || c = '\r'

/-- Drop leading JSON whitespace. -/
def skipWs : List Char → List Char
  | [] => []
  | c :: cs => if isJsonWs c then skipWs cs else c :: cs

/-- Read the body of a JSON string literal (the opening quote already
consumed), handling the common escapes. -/
def parseStrChars : List Char → Option (String × List Char)
  | [] => none
  | '"' :: cs => some ("", cs)
  | '\\' :: e :: cs =>
      let esc : Option Char :=
        if e = '"' then some '"'
        else if e = '\\' then some '\\'
        else if e = '/' then some '/'
        else if e = 'n' then some '\n'
        else if e = 't' then some '\t'
        else if e = 'r' then some '\r'
        else if e = 'b' then some (Char.ofNat 8)
        else if e = 'f' then some (Char.ofNat 12)
        else none
      match esc with
      | none => none
      | some c =>
          match parseStrChars cs with
          | none => none
          | some (s, rest) => some (String.singleton c ++ s, rest)
  | c :: cs =>
      if c = '\\' then none
      else
        match parseStrChars cs with
        | none => none
        | some (s, rest) => some (String.singleton c ++ s, rest)

/-- Split a leading run of decimal digits from the input. -/
def takeDigits : List Char → (List Char × List Char)
  | [] => ([], [])
  | c :: cs =>
      if c.isDigit then
        let (ds, r) := takeDigits cs
        (c :: ds, r)
      else ([], c :: cs)

/-- Numeric value of a digit run. -/
def digitsToNat (ds : List Char) : Nat :=
  ds.foldl (fun a c => a * 10 + (c.toNat - 48)) 0

mutual

/-- Fuel-indexed recursive-descent parser for a JSON value. -/
def parseVal : Nat → List Char → Option (Json × List Char)
  | 0, _ => none
  | fuel + 1, cs =>
      match skipWs cs with
      | 'n' :: 'u' :: 'l' :: 'l' :: r => some (.null, r)
      | 't' :: 'r' :: 'u' :: 'e' :: r => some (.bool true, r)
      | 'f' :: 'a' :: 'l' :: 's' :: 'e' :: r => some (.bool false, r)
      | '"' :: r =>
          match parseStrChars r with
          | none => none
          | some (s, rest) => some (.str s, rest)
      | '-' :: r =>
          match takeDigits r with
          | ([], _) => none
          | (ds, rest) => some (.num (-(digitsToNat ds : Int)), rest)
      | '[' :: r =>
          (match skipWs r with
           | ']' :: rest => some (.arr [], rest)
           | r2 =>
               match parseElems fuel r2 with
               | none => none
               | some (xs, rest) => some (.arr xs, rest))
      | '\x7b' :: r =>
          (match skipWs r with
           | '\x7d' :: rest => some (.obj [], rest)
           | r2 =>
               match parseFields fuel r2 with
               | none => none
               | some (fs, rest) => some (.obj fs, rest))
      | c :: r =>
          if c.isDigit then
            match takeDigits (c :: r) with
            | ([], _) => none
            | (ds, rest) => some (.num (digitsToNat ds : Int), rest)
          else none
      | [] => none

/-- Elements of a non-empty JSON array, up to and including the closing
bracket. -/
def parseElems : Nat → List Char → Option (List Json × List Char)
  | 0, _ => none
  | fuel + 1, cs =>
      match parseVal fuel cs with
      | none => none
      | some (v, rest) =>
          match skipWs rest with
          | ',' :: r2 =>
              match parseElems fuel r2 with
              | none => none
              | some (xs, r3) => some (v :: xs, r3)
          | ']' :: r2 => some ([v], r2)
          | _ => none

/-- Members of a non-empty JSON object, up to and including the closing
brace. -/
def parseFields : Nat → List Char → Option (List (String × Json) × List Char)
  | 0, _ => none
  | fuel + 1, cs =>
      match skipWs cs with
      | '"' :: r =>
          (match parseStrChars r with
           | none => none
           | some (k, rest) =>
               match skipWs rest with
               | ':' :: r2 =>
                   (match parseVal fuel r2 with
                    | none => none
                    | some (v, r3) =>
                        match skipWs r3 with
                        | ',' :: r4 =>
                            (match parseFields fuel r4 with
                             | none => none
                             | some (fs, r5) => some ((k, v) :: fs, r5))
                        | '\x7d' :: r4 => some ([(k, v)], r4)
                        | _ => none)
               | _ => none)
      | _ => none

end

/-- Model of `JSON.parse`: `none` when parsing throws. -/
def jsonParse (s : String) : Option Json :=
  match parseVal (2 * s.length + 4) s.data with
  | none => none
  | some (v, rest) => if skipWs rest = [] then some v else none

/-- Escape one character for a JSON string literal. -/
def escapeJsonChar (c : Char) : String :=
  if c = '"' then "\\\""
  else if c = '\\' then "\\\\"
  else if c = '\n' then "\\n"
  else if c = '\t' then "\\t"
  else if c = '\r' then "\\r"
  else String.singleton c

mutual

/-- Model of `JSON.stringify` on the values above. -/
def jsonStringify : Json → String
  | .null => "null"
  | .bool true => "true"
  | .bool false => "false"
  | .num n => toString n
  | .str s => "\"" ++ String.join (s.data.map escapeJsonChar) ++ "\""
  | .arr xs => "[" ++ stringifyElems xs ++ "]"
  | .obj fs => "\x7b" ++ stringifyFields fs ++ "\x7d"

/-- Comma-separated serialization of array elements. -/
def stringifyElems : List Json → String
  | [] => ""
  | [x] => jsonStringify x
  | x :: xs => jsonStringify x ++ "," ++ stringifyElems xs

/-- Comma-separated serialization of object members. -/
def stringifyFields : List (String × Json) → String
  | [] => ""
  | [(k, v)] => "\"" ++ k ++ "\":" ++ jsonStringify v
  | (k, v) :: fs => "\"" ++ k ++ "\":" ++ jsonStringify v ++ "," ++ stringifyFields fs

end

/-! ## JavaScript value semantics used by the component -/

/-- JavaScript truthiness of a JSON value. -/
def jsTruthy : Json → Bool
  | .null => false
  | .bool b => b
  | .num n => n ≠ 0
  | .str s => s ≠ ""
  | .arr _ => true
  | .obj _ => true

/-- Property access `v.k` on a parsed JSON value.  The outer `none`
models the `TypeError` thrown when the receiver is `null`; `some none`
models `undefined` (missing field, or a receiver that is not an
object); `some (some x)` is a present field. -/
def jsGetField (v : Json) (k : String) : Option (Option Json) :=
  match v with
  | .null => none
  | .obj fs => some ((fs.find? (fun f => f.1 = k)).map (fun f => f.2))
  | _ => some none

/-- Message of the `TypeError` thrown by reading property `k` of
`null`.  The exact wording is engine-specific (V8 also quotes the
key); the claims rely only on the entry kind and the catch path's
"Request failed: " / tour-catch prefix, not on this text. -/
def typeErrorMsg (k : String) : String :=
  "Cannot read properties of null (reading " ++ k ++ ")"

mutual

/-- String conversion as performed inside a template literal.  An
array stringifies as its elements joined with commas
(`Array.prototype.toString`, with `null` elements contributing the
empty string) and an object prints as `[object Object]`. -/
def jsToString : Json → String
  | .null => "null"
  | .bool true => "true"
  | .bool false => "false"
  | .num n => toString n
  | .str s => s
  | .arr xs => jsArrJoin xs
  | .obj _ => "[object Object]"

/-- Comma-joined element conversion of `Array.prototype.toString`. -/
def jsArrJoin : List Json → String
  | [] => ""
  | [.null] => ""
  | [x] => jsToString x
  | .null :: xs => "," ++ jsArrJoin xs
  | x :: xs => jsToString x ++ "," ++ jsArrJoin xs

end

/-- The expression `x || d` followed by template-literal conversion,
where `x` is a possibly-`undefined` JSON value and `d` a string
default: JavaScript falls back to `d` when `x` is absent or falsy. -/
def jsOrDefault (x : Option Json) (d : String) : String :=
  match x with
  | none => d
  | some v => if jsTruthy v then jsToString v else d

/-- JavaScript `String.prototype.trim`: strip whitespace from both
ends (executable model; the repository only ever trims ASCII text). -/
def jsTrim (s : String) : String :=
  ⟨((s.data.dropWhile Char.isWhitespace).reverse.dropWhile Char.isWhitespace).reverse⟩

/-- The expression `import.meta.env.VITE_API_URL + suffix`: when the
environment variable is absent (`undefined`), JavaScript string
concatenation stringifies it to `"undefined"`. -/
def jsAddStr (config : Option String) (suffix : String) : String :=
  (match config with
   | none => "undefined"
   | some s => s) ++ suffix

/-! ## Persistence layer

The `useState` initializer reading `bitcoinChatHistory` from
`localStorage`, and the save `useEffect`. -/

/-- Model of the `messages` `useState` initializer: `stored` is what
`localStorage.getItem(LOCAL_STORAGE_KEY)` returns (`none` for a missing
key).  The result pairs the initial history with whether
`localStorage.removeItem` was invoked.  The guard `if (savedHistory)`
is JavaScript truthiness, so the empty string is treated like a missing
key.  The whole body is wrapped in try/catch, so the initializer never
throws (the model is a total function). -/
def loadHistory (stored : Option String) : List Json × Bool :=
  match stored with
  | none => ([], false)
  | some s =>
      if s = "" then ([], false)
      else
        match jsonParse s with
        | none => ([], true)
        | some v =>
            match v with
            | .arr xs => (xs, false)
            | _ => ([], true)

/-- Model of the save `useEffect`: the string written to
`localStorage` for a history (write failures are caught and only
logged, so the stored value on success is exactly this string). -/
def saveHistory (h : List Json) : String :=
  jsonStringify (.arr h)

/-- Model of `handleClearHistory`: `setMessages([])`. -/
def handleClearHistory : List Json := []

/-! ## Session state and the `ask` operation -/

/-- Entry kinds: the `type` field of a conversation entry. -/
inductive MsgType where
  | user
  | bot
  | error
deriving DecidableEq, Repr

/-- A conversation entry as constructed by the component:
`{ type: ..., text: ... }`.  The text is a possibly-`undefined`
JavaScript value (`{ type: "bot", text: data.answer }` stores
`undefined` when the response body lacks `answer`). -/
structure Message where
  type : MsgType
  text : Option Json

/-- The component state relevant to the session claims. -/
structure AppState where
  messages : List Message
  input : String
  isLoading : Bool
  isBotTyping : Bool
  isTouring : Bool

/-- The mutually exclusive session mode of the spec, derived from the
two busy flags. -/
inductive SessionMode where
  | Idle
  | Answering
  | Touring
deriving DecidableEq, Repr

/-- SessionMode as a function of the component state: `Touring` while
`isTouring`, `Answering` while `isLoading`, otherwise `Idle`. -/
def sessionMode (st : AppState) : SessionMode :=
  if st.isTouring then .Touring
  else if st.isLoading then .Answering
  else .Idle

/-- Outcome of `await response.json()` on a received response:
either the body fails JSON parsing (the rejection carries the
`SyntaxError` message) or it parses to a value. -/
inductive BodyParse where
  | unparseable (emsg : String)
  | parsed (v : Json)

/-- Outcome of the `fetch` call: either the promise rejects (transport
failure, carrying the error message) or a response arrives with a
status, a status text and a body. -/
inductive FetchOutcome where
  | networkThrow (emsg : String)
  | response (status : Nat) (statusText : String) (body : BodyParse)

/-- `response.ok`: status in the 2xx range (HTTP statuses in 200..299). -/
def responseOk (status : Nat) : Bool :=
  200 ≤ status && status ≤ 299

/-- Result of a `handleSendMessage` invocation: the settled component
state and whether `fetch` was invoked. -/
structure AskResult where
  state : AppState
  fetchAttempted : Bool

/-- Model of `handleSendMessage`.  `config` is `VITE_API_URL` (`none`
when the variable is absent) and `outcome` the behaviour of the
`fetch` call.  The function returns the state once the handler has
settled: the guard rejects when the trimmed input is empty or the
session is busy; otherwise the user entry is appended, the URL guard
checked, the call issued, and the follow-up entry appended on each
exit path with `isLoading` reset in the `finally`. -/
def handleSendMessage (st : AppState) (config : Option String)
    (outcome : FetchOutcome) : AskResult :=
  let userQuestion := jsTrim st.input
  if userQuestion = "" ∨ st.isLoading = true ∨ st.isTouring = true then
    ⟨st, false⟩
  else
    let userMessage : Message := ⟨.user, some (.str userQuestion)⟩
    let ms := st.messages ++ [userMessage]
    let apiUrl := jsAddStr config "/ask"
    if apiUrl = "" ∨ apiUrl = "/ask" then
      ⟨{ st with messages := ms ++ [⟨.error, some (.str "API URL is not configured.")⟩],
                 input := "", isLoading := false, isBotTyping := false }, false⟩
    else
      match outcome with
      | .networkThrow emsg =>
          ⟨{ st with messages := ms ++ [⟨.error, some (.str ("Request failed: " ++ emsg))⟩],
                     input := "", isLoading := false, isBotTyping := false }, true⟩
      | .response status statusText body =>
          if responseOk status then
            match body with
            | .unparseable emsg =>
                ⟨{ st with messages := ms ++ [⟨.error, some (.str ("Request failed: " ++ emsg))⟩],
                           input := "", isLoading := false, isBotTyping := false }, true⟩
            | .parsed v =>
                match jsGetField v "answer" with
                | none =>
                    ⟨{ st with messages := ms ++
                         [⟨.error, some (.str ("Request failed: " ++ typeErrorMsg "answer"))⟩],
                               input := "", isLoading := false, isBotTyping := false }, true⟩
                | some ans =>
                    ⟨{ st with messages := ms ++ [⟨.bot, ans⟩],
                               input := "", isLoading := false, isBotTyping := false }, true⟩
          else
            match body with
            | .unparseable _ =>
                ⟨{ st with messages := ms ++
                     [⟨.error, some (.str ("API Error: " ++ toString status ++ " - " ++
                        jsOrDefault (some (.str statusText)) "Unknown Error"))⟩],
                           input := "", isLoading := false, isBotTyping := false }, true⟩
            | .parsed v =>
                match jsGetField v "error" with
                | none =>
                    ⟨{ st with messages := ms ++
                         [⟨.error, some (.str ("Request failed: " ++ typeErrorMsg "error"))⟩],
                               input := "", isLoading := false, isBotTyping := false }, true⟩
                | some ev =>
                    ⟨{ st with messages := ms ++
                         [⟨.error, some (.str ("API Error: " ++ toString status ++ " - " ++
                            jsOrDefault ev "Unknown Error"))⟩],
                               input := "", isLoading := false, isBotTyping := false }, true⟩

/-! ## The tour operation as an event trace

`handleStartTour` interleaves state mutations with awaited delays, and
one claim is about their relative order, so the handler is modelled as
the sequence of primitive effects it performs. -/

/-- Primitive effects performed by `handleStartTour`. -/
inductive Ev where
  | setTouring (b : Bool)
  | setTyping (b : Bool)
  | clearMessages
  | append (m : Message)
  | fetchStart
  | delayAwait (ms : Nat)

/-- The typing delay `msgText.length * 40 + 1000`.  Strings and arrays
have a `.length`; an object supplies one only through a numeric
`length` field (coercion of a numeric-string `length` is not
modelled); on other values `.length` is `undefined`, the product is
`NaN`, and `setTimeout` treats it as `0`.  A `null` element never
reaches this point: reading `.length` of `null` throws first
(see `tourLoop`). -/
def tourDelayMs : Json → Nat
  | .str s => s.length * 40 + 1000
  | .arr xs => xs.length * 40 + 1000
  | .obj fs =>
      match ((fs.find? (fun f => f.1 = "length")).map (fun f => f.2) : Option Json) with
      | some (Json.num n) => (n * 40 + 1000).toNat
      | _ => 0
  | _ => 0

/-- One iteration of the playback loop for a non-`null` script
element. -/
def tourStep (e : Json) : List Ev :=
  [.append ⟨.bot, some e⟩, .setTyping true, .delayAwait (tourDelayMs e), .setTyping false]

/-- The playback loop over the fetched script.  A `null` element still
has its `bot` entry appended and the typing signal raised, but
evaluating `msgText.length` then throws a `TypeError`, so the catch
appends an error entry and the loop aborts. -/
def tourLoop : List Json → List Ev
  | [] => []
  | .null :: _ =>
      [.append ⟨.bot, some .null⟩, .setTyping true, .setTyping false,
       .append ⟨.error, some (.str ("An unexpected error occurred during the tour: " ++
         typeErrorMsg "length"))⟩]
  | e :: rest => tourStep e ++ tourLoop rest

/-- Model of `handleStartTour` as its effect trace.  A rejected call
(busy guard) performs nothing.  The `finally` block always appends
`setTouring false, setTyping false`, also after an early `return`. -/
def handleStartTour (st : AppState) (config : Option String)
    (outcome : FetchOutcome) : List Ev :=
  if st.isLoading = true ∨ st.isBotTyping = true ∨ st.isTouring = true then
    []
  else
    let fin : List Ev := [.setTouring false, .setTyping false]
    let start : List Ev := [.setTouring true, .setTyping true, .clearMessages]
    let apiUrl := jsAddStr config "/tour"
    if apiUrl = "" ∨ apiUrl = "/tour" then
      start ++
        [.setTyping false,
         .append ⟨.error, some (.str "Tour failed: API URL is not configured for tour.")⟩,
         .setTouring false] ++ fin
    else
      match outcome with
      | .networkThrow emsg =>
          start ++ [.fetchStart, .setTyping false,
            .append ⟨.error,
              some (.str ("An unexpected error occurred during the tour: " ++ emsg))⟩] ++ fin
      | .response status statusText body =>
          if responseOk status then
            match body with
            | .unparseable emsg =>
                start ++ [.fetchStart, .setTyping false, .setTyping false,
                  .append ⟨.error,
                    some (.str ("An unexpected error occurred during the tour: " ++ emsg))⟩] ++ fin
            | .parsed v =>
                match jsGetField v "tour" with
                | none =>
                    start ++ [.fetchStart, .setTyping false, .setTyping false,
                      .append ⟨.error,
                        some (.str ("An unexpected error occurred during the tour: " ++
                          typeErrorMsg "tour"))⟩] ++ fin
                | some (some (.arr xs)) =>
                    start ++ [.fetchStart, .setTyping false] ++ tourLoop xs ++ fin
                | some _ =>
                    start ++ [.fetchStart, .setTyping false,
                      .append ⟨.error, some (.str "Tour failed: Invalid tour data format from API.")⟩,
                      .setTouring false] ++ fin
          else
            match body with
            | .unparseable _ =>
                start ++ [.fetchStart, .setTyping false,
                  .append ⟨.error, some (.str ("Tour failed: Tour API Error: " ++
                    toString status ++ " - " ++
                    jsOrDefault (some (.str statusText)) "Unknown Error"))⟩,
                  .setTouring false] ++ fin
            | .parsed v =>
                match jsGetField v "error" with
                | none =>
                    start ++ [.fetchStart, .setTyping false, .setTyping false,
                      .append ⟨.error,
                        some (.str ("An unexpected error occurred during the tour: " ++
                          typeErrorMsg "error"))⟩] ++ fin
                | some ev =>
                    start ++ [.fetchStart, .setTyping false,
                      .append ⟨.error, some (.str ("Tour failed: Tour API Error: " ++
                        toString status ++ " - " ++ jsOrDefault ev "Unknown Error"))⟩,
                      .setTouring false] ++ fin

/-- Effect of one primitive event on the component state. -/
def applyEv (st : AppState) : Ev → AppState
  | .setTouring b => { st with isTouring := b }
  | .setTyping b => { st with isBotTyping := b }
  | .clearMessages => { st with messages := [] }
  | .append m => { st with messages := st.messages ++ [m] }
  | .fetchStart => st
  | .delayAwait _ => st

/-- Run an effect trace from a state. -/
def runTour (st : AppState) (evs : List Ev) : AppState :=
  evs.foldl applyEv st

/-- Does an event set `isTouring` to `false`? -/
def isUntourFalse : Ev → Bool
  | .setTouring false => true
  | _ => false

/-- Is an event an awaited delay? -/
def isDelay : Ev → Bool
  | .delayAwait _ => true
  | _ => false

/-- True when some awaited delay occurs strictly after some
`setTouring false` in the trace — i.e. when the session leaves
`Touring` before the playback delays have all resolved. -/
def delaysAfterUntour : List Ev → Bool
  | [] => false
  | e :: rest => (isUntourFalse e && rest.any isDelay) || delaysAfterUntour rest

/-- Is an event the dispatch of the outbound call? -/
def isFetchStart : Ev → Bool
  | .fetchStart => true
  | _ => false

/-- A concrete idle state with pending input, used to instantiate the
universally quantified theorems. -/
def sampleAskState : AppState := ⟨[], "q", false, false, false⟩

/-! ## Helper lemmas -/

/-- An `Idle` session mode means both busy flags are down. -/
lemma idle_flags (st : AppState) (h : sessionMode st = .Idle) :
    st.isLoading = false ∧ st.isTouring = false := by
  cases hL : st.isLoading <;> cases hT : st.isTouring <;> simp_all [sessionMode]

/-- A non-`Idle` session mode means some busy flag is up. -/
lemma not_idle_flags (st : AppState) (h : sessionMode st ≠ .Idle) :
    st.isLoading = true ∨ st.isTouring = true := by
  cases hL : st.isLoading <;> cases hT : st.isTouring <;> simp_all [sessionMode]

/-- The concatenated API URL is never the empty string, because the
path suffix is non-empty; hence the `!apiUrl` half of the guard is
unreachable. -/
lemma jsAddStr_eq_empty (cfg : Option String) (sfx : String)
    (h : jsAddStr cfg sfx = "") : sfx = "" := by
  unfold jsAddStr at h
  have hd := congrArg String.data h
  rcases cfg with _ | s
  · simp at hd
  · simp at hd
    rcases hd with ⟨-, hd⟩
    cases sfx
    simp_all

/-- The follow-up entry appended by an accepted `handleSendMessage`
call, as a function of the configuration and the fetch outcome. -/
def askFollowup (cfg : Option String) (o : FetchOutcome) : Message :=
  if jsAddStr cfg "/ask" = "" ∨ jsAddStr cfg "/ask" = "/ask" then
    ⟨.error, some (.str "API URL is not configured.")⟩
  else
    match o with
    | .networkThrow e => ⟨.error, some (.str ("Request failed: " ++ e))⟩
    | .response status stx body =>
        if responseOk status then
          match body with
          | .unparseable e => ⟨.error, some (.str ("Request failed: " ++ e))⟩
          | .parsed v =>
              match jsGetField v "answer" with
              | none => ⟨.error, some (.str ("Request failed: " ++ typeErrorMsg "answer"))⟩
              | some ans => ⟨.bot, ans⟩
        else
          match body with
          | .unparseable _ =>
              ⟨.error, some (.str ("API Error: " ++ toString status ++ " - " ++
                jsOrDefault (some (.str stx)) "Unknown Error"))⟩
          | .parsed v =>
              match jsGetField v "error" with
              | none => ⟨.error, some (.str ("Request failed: " ++ typeErrorMsg "error"))⟩
              | some ev =>
                  ⟨.error, some (.str ("API Error: " ++ toString status ++ " - " ++
                    jsOrDefault ev "Unknown Error"))⟩

/-- Whether an accepted `handleSendMessage` call reaches `fetch`. -/
def askAttempted (cfg : Option String) : Bool :=
  if jsAddStr cfg "/ask" = "" ∨ jsAddStr cfg "/ask" = "/ask" then false else true

/-- Characterization of an accepted `handleSendMessage` call: one user
entry, one follow-up entry, the input cleared and both busy flags
reset. -/
lemma handleSendMessage_accepted (st : AppState) (cfg : Option String)
    (o : FetchOutcome) (hq : jsTrim st.input ≠ "")
    (hL : st.isLoading = false) (hT : st.isTouring = false) :
    handleSendMessage st cfg o =
      ⟨{ st with
           messages := st.messages ++
             [⟨.user, some (.str (jsTrim st.input))⟩, askFollowup cfg o],
           input := "", isLoading := false, isBotTyping := false },
       askAttempted cfg⟩ := by
  by_cases hcfg : jsAddStr cfg "/ask" = "" ∨ jsAddStr cfg "/ask" = "/ask"
  · simp [handleSendMessage, askFollowup, askAttempted, hq, hL, hT, hcfg]
  · rcases o with e | ⟨status, stx, body⟩
    · simp [handleSendMessage, askFollowup, askAttempted, hq, hL, hT, hcfg]
    · by_cases hok : responseOk status = true
      · rcases body with e | v
        · simp [handleSendMessage, askFollowup, askAttempted, hq, hL, hT, hcfg, hok]
        · rcases hg : jsGetField v "answer" with _ | a <;>
            simp [handleSendMessage, askFollowup, askAttempted, hq, hL, hT, hcfg, hok, hg]
      · rcases body with e | v
        · simp [handleSendMessage, askFollowup, askAttempted, hq, hL, hT, hcfg, hok]
        · rcases hg : jsGetField v "error" with _ | a <;>
            simp [handleSendMessage, askFollowup, askAttempted, hq, hL, hT, hcfg, hok, hg]

/-- The follow-up entry is always of kind `bot` or `error`. -/
lemma askFollowup_type (cfg : Option String) (o : FetchOutcome) :
    (askFollowup cfg o).type = .bot ∨ (askFollowup cfg o).type = .error := by
  by_cases hcfg : jsAddStr cfg "/ask" = "" ∨ jsAddStr cfg "/ask" = "/ask"
  · simp [askFollowup, hcfg]
  · rcases o with e | ⟨status, stx, body⟩
    · simp [askFollowup, hcfg]
    · by_cases hok : responseOk status = true
      · rcases body with e | v
        · simp [askFollowup, hcfg, hok]
        · rcases hg : jsGetField v "answer" with _ | a <;> simp [askFollowup, hcfg, hok, hg]
      · rcases body with e | v
        · simp [askFollowup, hcfg, hok]
        · rcases hg : jsGetField v "error" with _ | a <;> simp [askFollowup, hcfg, hok, hg]

/-- Running a concatenated trace runs the two halves in order. -/
lemma runTour_append (st : AppState) (a b : List Ev) :
    runTour st (a ++ b) = runTour (runTour st a) b := by
  simp [runTour, List.foldl_append]

/-- Effect of the playback loop on the state: the script is appended as
`bot` entries, in order, and the loop ends with the typing signal
down. -/
lemma runTour_tourSteps (st : AppState) (script : List String)
    (h : st.isBotTyping = false) :
    runTour st ((script.map Json.str).flatMap tourStep) =
      { st with messages :=
          st.messages ++ script.map (fun s => ⟨.bot, some (.str s)⟩) } := by
  induction script generalizing st with
  | nil =>
      cases st
      simp_all [runTour]
  | cons s rest ih =>
      rw [List.map_cons, List.flatMap_cons, runTour_append]
      have h1 : runTour st (tourStep (.str s)) =
          { st with messages := st.messages ++ [⟨.bot, some (.str s)⟩],
                    isBotTyping := false } := by
        cases st; rfl
      rw [h1]
      have h2 := ih { st with
        messages := st.messages ++ [⟨.bot, some (.str s)⟩],
        isBotTyping := false } rfl
      rw [h2]
      simp [h]

/-- If the first half of a trace never lowers `isTouring`, the
delays-after-untour check only depends on the second half. -/
lemma delaysAfterUntour_append (a b : List Ev)
    (ha : ∀ e ∈ a, isUntourFalse e = false) :
    delaysAfterUntour (a ++ b) = delaysAfterUntour b := by
  induction a with
  | nil => rfl
  | cons e a ih =>
      have he : isUntourFalse e = false := ha e (by simp)
      simp [delaysAfterUntour, he]
      exact ih (fun x hx => ha x (by simp [hx]))

/-- No playback-loop event lowers `isTouring`. -/
lemma tourStep_no_untour (x : Json) : ∀ e ∈ tourStep x, isUntourFalse e = false := by
  intro e he
  simp [tourStep] at he
  rcases he with h | h | h | h <;> subst h <;> rfl

/-- On an all-strings script the playback loop never hits the `null`
abort case: it is exactly the per-element steps in order. -/
lemma tourLoop_strings (script : List String) :
    tourLoop (script.map Json.str) = (script.map Json.str).flatMap tourStep := by
  induction script with
  | nil => rfl
  | cons s rest ih => simp [tourLoop, ih]

/-! ## Claim theorems -/

/-- C1: while SessionMode is not Idle (`isLoading` or `isTouring` is
true), `handleSendMessage` and `handleStartTour` are rejected as
no-ops: the returned state is the input state unchanged (zero entries
appended, mode unchanged), no fetch is attempted, and the tour
performs no effect. -/
theorem busy_calls_are_noops (st : AppState) (cfg cfg' : Option String)
    (o o' : FetchOutcome) (h : sessionMode st ≠ .Idle) :
    handleSendMessage st cfg o = ⟨st, false⟩ ∧
    handleStartTour st cfg' o' = [] ∧
    runTour st (handleStartTour st cfg' o') = st := by
  have hb := not_idle_flags st h
  have hask : handleSendMessage st cfg o = ⟨st, false⟩ := by
    rcases hb with hb | hb <;> simp [handleSendMessage, hb]
  have ht : handleStartTour st cfg' o' = [] := by
    rcases hb with hb | hb <;> simp [handleStartTour, hb]
  exact ⟨hask, ht, by rw [ht]; rfl⟩

/-- C1 witness: a concrete busy state (Answering) on which both
operations are no-ops. -/
theorem busy_calls_are_noops_check :
    handleSendMessage ⟨[], "hi", true, false, false⟩ (some "http://api")
        (.networkThrow "x") = ⟨⟨[], "hi", true, false, false⟩, false⟩ ∧
    handleStartTour ⟨[], "hi", true, false, false⟩ (some "http://api")
        (.networkThrow "x") = [] ∧
    runTour ⟨[], "hi", true, false, false⟩
        (handleStartTour ⟨[], "hi", true, false, false⟩ (some "http://api")
          (.networkThrow "x")) = ⟨[], "hi", true, false, false⟩ :=
  busy_calls_are_noops ⟨[], "hi", true, false, false⟩ (some "http://api")
    (some "http://api") (.networkThrow "x") (.networkThrow "x") (by decide)

/-- C2: an accepted `handleSendMessage` call (non-empty trimmed input,
Idle mode) appends exactly one `user` entry followed by exactly one
follow-up entry of kind `bot` or `error`, on every configuration and
fetch outcome. -/
theorem ask_appends_user_and_one_followup (st : AppState) (cfg : Option String)
    (o : FetchOutcome) (hq : jsTrim st.input ≠ "")
    (hidle : sessionMode st = .Idle) :
    ∃ follow : Message,
      (handleSendMessage st cfg o).state.messages =
        st.messages ++ [⟨.user, some (.str (jsTrim st.input))⟩, follow] ∧
      ((follow.type = .bot ∨ follow.type = .error)) := by
  obtain ⟨hL, hT⟩ := idle_flags st hidle
  refine ⟨askFollowup cfg o, ?_, askFollowup_type cfg o⟩
  rw [handleSendMessage_accepted st cfg o hq hL hT]

/-- C2 witness: concrete accepted call with a successful answer. -/
theorem ask_appends_user_and_one_followup_check :
    ∃ follow : Message,
      (handleSendMessage sampleAskState (some "http://api")
          (.response 200 "OK" (.parsed (.obj [("answer", .str "A")])))).state.messages =
        sampleAskState.messages ++
          [⟨.user, some (.str (jsTrim sampleAskState.input))⟩, follow] ∧
      ((follow.type = .bot ∨ follow.type = .error)) :=
  ask_appends_user_and_one_followup sampleAskState (some "http://api")
    (.response 200 "OK" (.parsed (.obj [("answer", .str "A")])))
    (by decide) (by decide)

/-- C3: an accepted `handleSendMessage` call settles with SessionMode
Idle (`isLoading` false) on every exit path. -/
theorem ask_settles_idle (st : AppState) (cfg : Option String)
    (o : FetchOutcome) (hq : jsTrim st.input ≠ "")
    (hidle : sessionMode st = .Idle) :
    sessionMode (handleSendMessage st cfg o).state = .Idle ∧
    (handleSendMessage st cfg o).state.isLoading = false := by
  obtain ⟨hL, hT⟩ := idle_flags st hidle
  rw [handleSendMessage_accepted st cfg o hq hL hT]
  simp [sessionMode, hT]

/-- C3 witness: concrete accepted call settling Idle on an HTTP error. -/
theorem ask_settles_idle_check :
    sessionMode (handleSendMessage sampleAskState (some "http://api")
        (.response 503 "Service Unavailable" (.unparseable "bad json"))).state = .Idle ∧
    (handleSendMessage sampleAskState (some "http://api")
        (.response 503 "Service Unavailable" (.unparseable "bad json"))).state.isLoading = false :=
  ask_settles_idle sampleAskState (some "http://api")
    (.response 503 "Service Unavailable" (.unparseable "bad json"))
    (by decide) (by decide)

/-- C4: an accepted `handleStartTour` call whose response carries a
well-formed string script first clears the history, then performs, for
each script string strictly in order, append-bot / show-typing /
await-delay / hide-typing; the final history is the script mapped to
`bot` entries in script order, the final mode is Idle, and no awaited
delay occurs after `isTouring` has been lowered (the mode returns to
Idle only after the last delay resolves). -/
theorem tour_success_plays_script_in_order (st : AppState) (cfg : Option String)
    (status : Nat) (stx : String) (v : Json) (script : List String)
    (hL : st.isLoading = false) (hB : st.isBotTyping = false)
    (hT : st.isTouring = false)
    (hcfg : jsAddStr cfg "/tour" ≠ "/tour")
    (hok : responseOk status = true)
    (htour : jsGetField v "tour" = some (some (.arr (script.map Json.str)))) :
    handleStartTour st cfg (.response status stx (.parsed v)) =
      ([.setTouring true, .setTyping true, .clearMessages, .fetchStart,
        .setTyping false] ++ (script.map Json.str).flatMap tourStep) ++
        [.setTouring false, .setTyping false] ∧
    (runTour st (handleStartTour st cfg (.response status stx (.parsed v)))).messages =
      script.map (fun s => ⟨.bot, some (.str s)⟩) ∧
    sessionMode (runTour st (handleStartTour st cfg (.response status stx (.parsed v)))) = .Idle ∧
    delaysAfterUntour (handleStartTour st cfg (.response status stx (.parsed v))) = false := by
  have hne : jsAddStr cfg "/tour" ≠ "" := by
    intro h
    have h2 := jsAddStr_eq_empty cfg "/tour" h
    simp at h2
  have hguard : ¬(jsAddStr cfg "/tour" = "" ∨ jsAddStr cfg "/tour" = "/tour") := by
    rintro (h | h)
    · exact hne h
    · exact hcfg h
  have hshape : handleStartTour st cfg (.response status stx (.parsed v)) =
      ([.setTouring true, .setTyping true, .clearMessages, .fetchStart,
        .setTyping false] ++ (script.map Json.str).flatMap tourStep) ++
        [.setTouring false, .setTyping false] := by
    simp [handleStartTour, hL, hB, hT, hguard, hok, htour, tourLoop_strings]
  have hA : runTour st [.setTouring true, .setTyping true, .clearMessages,
      .fetchStart, .setTyping false] =
      { st with messages := [], isBotTyping := false, isTouring := true } := by
    cases st; rfl
  have hB2 := runTour_tourSteps
    { st with messages := ([] : List Message), isBotTyping := false,
              isTouring := true } script rfl
  have hfin : ∀ x : AppState, runTour x [.setTouring false, .setTyping false] =
      { x with isTouring := false, isBotTyping := false } := by
    intro x; cases x; rfl
  have hrun : runTour st (handleStartTour st cfg (.response status stx (.parsed v))) =
      { st with messages := script.map (fun s => ⟨.bot, some (.str s)⟩),
                isBotTyping := false, isTouring := false } := by
    rw [hshape, runTour_append, runTour_append, hA]
    rw [hB2, hfin]
    simp
  refine ⟨hshape, ?_, ?_, ?_⟩
  · rw [hrun]
  · rw [hrun]
    simp [sessionMode, hL]
  · rw [hshape]
    have hno : ∀ e ∈ ([.setTouring true, .setTyping true, .clearMessages,
        .fetchStart, .setTyping false] ++ (script.map Json.str).flatMap tourStep),
        isUntourFalse e = false := by
      intro e he
      rcases List.mem_append.mp he with he | he
      · simp at he
        rcases he with h | h | h | h | h <;> subst h <;> rfl
      · rcases List.mem_flatMap.mp he with ⟨x, -, hx⟩
        exact tourStep_no_untour x e hx
    rw [delaysAfterUntour_append _ _ hno]
    rfl

/-- C4 witness: the two-message tour scenario of the spec. -/
theorem tour_success_plays_script_in_order_check :
    (runTour sampleAskState (handleStartTour sampleAskState (some "http://api")
        (.response 200 "OK"
          (.parsed (.obj [("tour", .arr [.str "Hi", .str "Welcome"])]))))).messages =
      [⟨.bot, some (.str "Hi")⟩, ⟨.bot, some (.str "Welcome")⟩] ∧
    delaysAfterUntour (handleStartTour sampleAskState (some "http://api")
        (.response 200 "OK"
          (.parsed (.obj [("tour", .arr [.str "Hi", .str "Welcome"])])))) = false :=
  have h := tour_success_plays_script_in_order sampleAskState (some "http://api")
    200 "OK" (.obj [("tour", .arr [.str "Hi", .str "Welcome"])]) ["Hi", "Welcome"]
    rfl rfl rfl (by decide) rfl rfl
  ⟨h.2.1, h.2.2.2⟩

/-- C5 counterexample: a 2xx response whose parsed body lacks the
`answer` field is NOT treated as a failure — the handler appends a
`bot` entry whose text is the `undefined` answer, not an `error`
entry. -/
theorem missing_answer_yields_bot_not_error_cx :
    (handleSendMessage sampleAskState (some "http://api")
        (.response 200 "OK" (.parsed (.obj [])))).state.messages =
      [⟨.user, some (.str "q")⟩, ⟨.bot, none⟩] ∧
    MsgType.bot ≠ MsgType.error := ⟨rfl, by decide⟩

/-- C5 (amended): for an accepted ask whose request succeeds (2xx), a
body that fails JSON parsing is treated as a failure (the follow-up is
an `error` entry via the catch path); a body that parses to `null` is
also a failure, because reading `data.answer` of `null` throws a
`TypeError` into the catch path; but a body that parses to any
non-`null` value — even one missing the `answer` field — yields a
`bot` entry carrying the raw `answer` field (`undefined` when absent),
never an `error` entry. -/
theorem ask_2xx_body_dictates_followup (st : AppState) (cfg : Option String)
    (status : Nat) (stx : String) (body : BodyParse)
    (hq : jsTrim st.input ≠ "") (hidle : sessionMode st = .Idle)
    (hcfg : jsAddStr cfg "/ask" ≠ "/ask")
    (hok : responseOk status = true) :
    (handleSendMessage st cfg (.response status stx body)).state.messages =
      st.messages ++ [⟨.user, some (.str (jsTrim st.input))⟩,
        match body with
        | .unparseable e => ⟨.error, some (.str ("Request failed: " ++ e))⟩
        | .parsed .null => ⟨.error, some (.str ("Request failed: " ++ typeErrorMsg "answer"))⟩
        | .parsed v => ⟨.bot, (jsGetField v "answer").getD none⟩] := by
  obtain ⟨hL, hT⟩ := idle_flags st hidle
  have hne : jsAddStr cfg "/ask" ≠ "" := by
    intro h
    have h2 := jsAddStr_eq_empty cfg "/ask" h
    simp at h2
  have hguard : ¬(jsAddStr cfg "/ask" = "" ∨ jsAddStr cfg "/ask" = "/ask") := by
    rintro (h | h)
    · exact hne h
    · exact hcfg h
  rw [handleSendMessage_accepted st cfg _ hq hL hT]
  rcases body with e | v
  · simp [askFollowup, hguard, hok]
  · cases v <;> simp [askFollowup, hguard, hok, jsGetField]

/-- C5 witness: concrete instantiation at a parsed body missing
`answer` and at an unparseable body. -/
theorem ask_2xx_body_dictates_followup_check :
    (handleSendMessage sampleAskState (some "http://api")
        (.response 200 "OK" (.parsed (.obj [])))).state.messages =
      [⟨.user, some (.str "q")⟩, ⟨.bot, none⟩] :=
  ask_2xx_body_dictates_followup sampleAskState (some "http://api") 200 "OK"
    (.parsed (.obj [])) (by decide) (by decide) (by decide) rfl

/-- C6: with the base URL absent (`VITE_API_URL` undefined), the
computed URL is the truthy string "undefined/ask", the "not
configured" guard does not fire, and a fetch IS attempted by both
operations — contradicting the fail-fast claim (the dead `!apiUrl`
half of the guard shows the claim matches the intent, so this is a
code bug). -/
theorem absent_config_still_attempts_fetch :
    jsAddStr none "/ask" = "undefined/ask" ∧
    (handleSendMessage sampleAskState none (.networkThrow "Failed to fetch")).fetchAttempted = true ∧
    (handleSendMessage sampleAskState none (.networkThrow "Failed to fetch")).state.messages =
      [⟨.user, some (.str "q")⟩,
       ⟨.error, some (.str "Request failed: Failed to fetch")⟩] ∧
    (handleStartTour sampleAskState none (.networkThrow "Failed to fetch")).any isFetchStart = true :=
  ⟨rfl, rfl, rfl, rfl⟩

/-- C7 counterexample: the stored value `""` fails deserialization
(`JSON.parse("")` throws), yet the initializer treats it like a
missing key and retains it — the removal flag stays `false`, against
the claim that a failing value is always deleted. -/
theorem empty_string_value_retained_cx :
    jsonParse "" = none ∧ loadHistory (some "") = ([], false) := ⟨rfl, rfl⟩

/-- C7 (amended): the initializer never raises (it is a total
function); a missing key yields the empty history; a present
NON-EMPTY value yields the parsed array when it parses to one, and
otherwise the empty history with the offending value deleted; the
empty-string value, however, is treated like a missing key (empty
history, value retained). -/
theorem load_self_healing (s : String) (hs : s ≠ "") :
    loadHistory none = ([], false) ∧
    loadHistory (some "") = ([], false) ∧
    loadHistory (some s) =
      (match jsonParse s with
       | some (.arr xs) => (xs, false)
       | some _ => ([], true)
       | none => ([], true)) := by
  refine ⟨rfl, rfl, ?_⟩
  rcases hp : jsonParse s with _ | v
  · simp [loadHistory, hs, hp]
  · cases v <;> simp [loadHistory, hs, hp]

/-- C7 witness: a non-empty unparseable value is replaced by the empty
history and deleted. -/
theorem load_self_healing_check : loadHistory (some "xyz") = ([], true) := by
  have h := (load_self_healing "xyz" (by decide)).2.2
  rw [show jsonParse "xyz" = none from rfl] at h
  exact h

/-- C8 counterexample: HTTP 500 with parsed body `\x7berror: ""\x7d` —
the server-provided message is the empty string, but the entry text is
"API Error: 500 - Unknown Error", not "API Error: 500 - " as the
claim's format dictates (`errorData.error || "Unknown Error"` discards
falsy messages). -/
theorem empty_server_message_fallback_cx :
    (handleSendMessage sampleAskState (some "http://api")
        (.response 500 "Internal Server Error"
          (.parsed (.obj [("error", .str "")])))).state.messages =
      [⟨.user, some (.str "q")⟩,
       ⟨.error, some (.str "API Error: 500 - Unknown Error")⟩] ∧
    ("API Error: 500 - Unknown Error" : String) ≠ "API Error: 500 - " := ⟨rfl, by decide⟩

/-- C8 (amended): for an accepted ask receiving a non-2xx response, the
follow-up is an `error` entry whose text is "API Error: ", the status
code, " - ", then the JS stringification of the body's `error` field
when present and truthy (a non-empty array joining as "a,b"), the HTTP
status text when the body is unparseable and the status text is
non-empty, and "Unknown Error" otherwise — except that a body parsing
to `null` throws at the `errorData.error` access, so the follow-up is
instead the catch path's "Request failed: " entry. -/
theorem ask_http_error_entry_format (st : AppState) (cfg : Option String)
    (status : Nat) (stx : String) (body : BodyParse)
    (hq : jsTrim st.input ≠ "") (hidle : sessionMode st = .Idle)
    (hcfg : jsAddStr cfg "/ask" ≠ "/ask")
    (hok : responseOk status = false) :
    (handleSendMessage st cfg (.response status stx body)).state.messages =
      st.messages ++ [⟨.user, some (.str (jsTrim st.input))⟩,
        match body with
        | .unparseable _ =>
            ⟨.error, some (.str ("API Error: " ++ toString status ++ " - " ++
              jsOrDefault (some (.str stx)) "Unknown Error"))⟩
        | .parsed .null =>
            ⟨.error, some (.str ("Request failed: " ++ typeErrorMsg "error"))⟩
        | .parsed v =>
            ⟨.error, some (.str ("API Error: " ++ toString status ++ " - " ++
              jsOrDefault ((jsGetField v "error").getD none) "Unknown Error"))⟩] := by
  obtain ⟨hL, hT⟩ := idle_flags st hidle
  have hne : jsAddStr cfg "/ask" ≠ "" := by
    intro h
    have h2 := jsAddStr_eq_empty cfg "/ask" h
    simp at h2
  have hguard : ¬(jsAddStr cfg "/ask" = "" ∨ jsAddStr cfg "/ask" = "/ask") := by
    rintro (h | h)
    · exact hne h
    · exact hcfg h
  rw [handleSendMessage_accepted st cfg _ hq hL hT]
  rcases body with e | v
  · simp [askFollowup, hguard, hok]
  · cases v <;> simp [askFollowup, hguard, hok, jsGetField]

/-- C8 witness: the specified scenario — HTTP 500 with body
`\x7berror: "overloaded"\x7d` yields the entry text
"API Error: 500 - overloaded". -/
theorem ask_http_error_entry_format_check :
    (handleSendMessage sampleAskState (some "http://api")
        (.response 500 "Internal Server Error"
          (.parsed (.obj [("error", .str "overloaded")])))).state.messages =
      [⟨.user, some (.str "q")⟩,
       ⟨.error, some (.str "API Error: 500 - overloaded")⟩] :=
  ask_http_error_entry_format sampleAskState (some "http://api") 500
    "Internal Server Error" (.parsed (.obj [("error", .str "overloaded")]))
    (by decide) (by decide) (by decide) rfl

/-- C9: `handleClearHistory` yields the empty history, and saving that
empty history then loading it round-trips to the empty history. -/
theorem clear_save_load_roundtrip :
    handleClearHistory = [] ∧
    loadHistory (some (saveHistory handleClearHistory)) = ([], false) := ⟨rfl, rfl⟩

/-- C10: the initializer validates only that the stored value parses to
an array — any string parsing to a JSON array is returned verbatim as
the initial history, whatever the shape of its elements. -/
theorem load_returns_any_parsed_array (s : String) (xs : List Json)
    (h : jsonParse s = some (.arr xs)) :
    loadHistory (some s) = (xs, false) := by
  have hs : s ≠ "" := by
    intro he
    subst he
    rw [show jsonParse "" = none from rfl] at h
    cases h
  simp [loadHistory, hs, h]

/-- C10 witness: a stored array of a bare number and an entry-shaped
object with no fields is returned verbatim. -/
theorem load_returns_any_parsed_array_check :
    loadHistory (some "[1,\x7b\x7d]") = ([.num 1, .obj []], false) :=
  load_returns_any_parsed_array "[1,\x7b\x7d]" [.num 1, .obj []] rfl

end BChat
